import Mathlib

/-! Verification of the node-graph model of the repository.

The repository holds two Streamlit pages: `src/1Node.py` (a visual canvas
whose embedded script maintains `canvas_data` and whose export section
produces the `agent_config` document) and `src/Node.py` (dataclass-based
agent flow state with demo handlers, save/load and a clear button).
Numbers carried by nodes (positions, temperature) are embedded as `Rat`. -/

/-- Clamp a rational to the interval [0, 1], written with decidable tests so
that concrete values evaluate; `clamp01_eq_max_min` identifies it with
`max 0 (min 1 v)`. -/
def clamp01 (v : Rat) : Rat := if v < 0 then 0 else if 1 < v then 1 else v

/-- Assignment `d[k] = v` on a Python dict kept as an association list in
insertion order: replace in place when the key exists, else append. -/
def assocSet {α : Type} (d : List (String × α)) (k : String) (v : α) :
    List (String × α) :=
  if d.any (fun p => p.1 == k) then d.map (fun p => if p.1 == k then (k, v) else p)
  else d ++ [(k, v)]

/-- Lookup of `k` on an association list, first match wins. -/
def assocGet {α : Type} (d : List (String × α)) (k : String) : Option α :=
  (d.find? (fun p => p.1 == k)).map (fun p => p.2)

/-- `k` occurs among the keys of the association list. -/
def isKey {α : Type} (d : List (String × α)) (k : String) : Prop :=
  ∃ p ∈ d, p.1 = k

instance {α : Type} (d : List (String × α)) (k : String) : Decidable (isKey d k) :=
  List.decidableBEx _ d

/-- JavaScript `s.slice(-4)`: the last four characters of a string (the whole
string when it is shorter than four characters). -/
def sliceLast4 (s : String) : String := String.mk (s.data.drop (s.data.length - 4))

namespace Canvas

/-- A node record in `st.session_state.canvas_data['nodes']` of `src/1Node.py`:
the keys `id`, `type`, `x`, `y`, `name` are written by `createNode`
(lines 249-255); the optional keys are written by the sidebar properties
editor (lines 120-154). -/
structure CNode where
  id : String
  type : String
  x : Rat
  y : Rat
  name : Option String
  model : Option String := none
  temperature : Option Rat := none
  tool_type : Option String := none
  parameters : Option String := none
  memory_type : Option String := none
  routing_logic : Option String := none
deriving DecidableEq, Repr

/-- A connection record pushed by `createConnection` (`src/1Node.py` lines
296-300), holding the keys `from`, `to` and `id`; `from` and `to` are spelled
`fromId` and `toId` because `from` is reserved in Lean. -/
structure CConn where
  fromId : String
  toId : String
  id : String
deriving DecidableEq, Repr

/-- `st.session_state.canvas_data`. -/
structure CanvasData where
  nodes : List CNode
  connections : List CConn
deriving DecidableEq, Repr

/-- The initial session state (`src/1Node.py` lines 37-41). -/
def emptyCanvas : CanvasData := { nodes := [], connections := [] }

/-- The component library of `src/1Node.py` (lines 54-85); the double-click
handler (line 319) only accepts a type present in this library. -/
def componentTypes : List String :=
  ["Input", "LLM", "Tool", "Memory", "Router", "Output"]

/-- The node id built at line 190 of `src/1Node.py`, namely
`'node_' + Date.now() + '_' + r` where `r` stands for the random padding
`Math.random().toString(36).substr(2, 9)`. -/
def nodeIdOf (now : Nat) (rand : String) : String :=
  "node_" ++ toString now ++ "_" ++ rand

/-- `createNode` (`src/1Node.py` lines 189-259): pushes onto the state a node
record carrying the fresh id and the default name
`type + '_' + nodeId.slice(-4)`. -/
def createNode (s : CanvasData) (ty : String) (x y : Rat) (now : Nat)
    (rand : String) : CanvasData :=
  { s with nodes := s.nodes ++
      [{ id := nodeIdOf now rand, type := ty, x := x, y := y,
         name := some (ty ++ "_" ++ sliceLast4 (nodeIdOf now rand)) }] }

/-- `createConnection` (`src/1Node.py` lines 262-303): pushes the record
built from `startNode.nodeId`, `endNode.nodeId` and `'conn_' + Date.now()`.
The function performs no validation of any kind. -/
def createConnection (s : CanvasData) (startNode endNode : CNode) (now : Nat) :
    CanvasData :=
  { s with connections := s.connections ++
      [{ fromId := startNode.id, toId := endNode.id,
         id := "conn_" ++ toString now }] }

/-- The Clear Canvas button (`src/1Node.py` lines 99-101) and the
`clear_canvas` message handler (lines 350-356): both collections are reset
together. -/
def clearCanvas (_s : CanvasData) : CanvasData := { nodes := [], connections := [] }

/-- One pass of the sidebar node-properties editor (`src/1Node.py` lines
109-154) over the selected node: the name text input is always written and
the remaining fields depend on the node type. The temperature comes from a
slider whose bounds are 0.0 and 1.0 (line 133), so the stored value is the
requested one constrained to [0, 1]; this bound enforcement by the widget is
the only clamping mechanism in the source. -/
def editorUpdate (n : CNode) (newName modelChoice : String) (temp : Rat)
    (toolChoice params memChoice routing : String) : CNode :=
  if n.type = "LLM" then
    { n with name := some newName, model := some modelChoice,
             temperature := some (clamp01 temp) }
  else if n.type = "Tool" then
    { n with name := some newName, tool_type := some toolChoice,
             parameters := some params }
  else if n.type = "Memory" then
    { n with name := some newName, memory_type := some memChoice }
  else if n.type = "Router" then
    { n with name := some newName, routing_logic := some routing }
  else { n with name := some newName }

/-- The editor applied to the node currently selected by id. -/
def applyEditor (s : CanvasData) (nid newName modelChoice : String) (temp : Rat)
    (toolChoice params memChoice routing : String) : CanvasData :=
  { s with nodes := s.nodes.map (fun n =>
      if n.id = nid then
        editorUpdate n newName modelChoice temp toolChoice params memChoice routing
      else n) }

/-- The value stored under `agent_config["nodes"][id]`
(`src/1Node.py` lines 412-425). -/
structure NodeEntry where
  type : String
  name : String
  posX : Rat
  posY : Rat
  model : Option String
  temperature : Option Rat
  tool_type : Option String
deriving DecidableEq, Repr

/-- An entry of `agent_config["flow"]` (`src/1Node.py` lines 429-433). -/
structure FlowEntry where
  fromId : String
  toId : String
  condition : String
deriving DecidableEq, Repr

/-- The `agent_config` document (`src/1Node.py` lines 403-433); the `nodes`
dict is kept in insertion order. -/
structure AgentConfig where
  agent_type : String
  created_at : String
  nodes : List (String × NodeEntry)
  flow : List FlowEntry
deriving DecidableEq, Repr

/-- The per-node export entry: type lowercased, `node.get('name', node['type'])`,
the position, and the config keys `model`, `temperature`, `tool_type` copied
exactly when present on the node. -/
def nodeEntryOf (n : CNode) : NodeEntry :=
  { type := n.type.toLower, name := n.name.getD n.type, posX := n.x, posY := n.y,
    model := n.model, temperature := n.temperature, tool_type := n.tool_type }

/-- The per-connection flow entry; condition is always the string `default`. -/
def flowEntryOf (c : CConn) : FlowEntry :=
  { fromId := c.fromId, toId := c.toId, condition := "default" }

/-- The Export JSON section (`src/1Node.py` lines 399-433) as a function of
the canvas state. -/
def toConfig (s : CanvasData) : AgentConfig :=
  { agent_type := "custom_visual_agent",
    created_at := "2024-01-01T00:00:00Z",
    nodes := s.nodes.foldl (fun d n => assocSet d n.id (nodeEntryOf n)) [],
    flow := s.connections.map flowEntryOf }

/-- The export section again, with the session state threaded explicitly
through the two for loops of `src/1Node.py` lines 411-433; the loop bodies
read the state and write only into the document being built, so the state
component is carried through unchanged at every step. -/
def exportConfigLoop (s : CanvasData) : AgentConfig × CanvasData :=
  let step1 := s.nodes.foldl
    (fun (acc : List (String × NodeEntry) × CanvasData) n =>
      (assocSet acc.1 n.id (nodeEntryOf n), acc.2)) ([], s)
  let step2 := step1.2.connections.foldl
    (fun (acc : List FlowEntry × CanvasData) c =>
      (acc.1 ++ [flowEntryOf c], acc.2)) ([], step1.2)
  ({ agent_type := "custom_visual_agent",
     created_at := "2024-01-01T00:00:00Z",
     nodes := step1.1, flow := step2.1 }, step2.2)

/-- The canvas states reachable by the operations `src/1Node.py` performs on
`canvas_data`: the empty initial state, `createNode` for a type accepted by
the double-click handler, `createConnection` applied to two nodes present on
the canvas (the mousedown handler only ever passes canvas groups, each
registered by `createNode`), the properties editor, and the clearing paths. -/
inductive Reachable : CanvasData → Prop where
  | empty : Reachable emptyCanvas
  | addNode {s : CanvasData} {ty : String} {x y : Rat} {now : Nat} {rand : String} :
      Reachable s → ty ∈ componentTypes → Reachable (createNode s ty x y now rand)
  | addConn {s : CanvasData} {a b : CNode} {now : Nat} :
      Reachable s → a ∈ s.nodes → b ∈ s.nodes → Reachable (createConnection s a b now)
  | edit {s : CanvasData} {nid nm mo : String} {t : Rat} {tl pa me ro : String} :
      Reachable s → Reachable (applyEditor s nid nm mo t tl pa me ro)
  | clear {s : CanvasData} : Reachable s → Reachable (clearCanvas s)

/-- Referential integrity of a canvas state: both endpoints of every stored
connection are ids of stored nodes. -/
def refIntegrity (s : CanvasData) : Prop :=
  ∀ c ∈ s.connections,
    (∃ n ∈ s.nodes, n.id = c.fromId) ∧ (∃ n ∈ s.nodes, n.id = c.toId)

/-- One `createNode` invocation: the component type, the double-click
position, and the clock and random material that form the id. -/
structure NodeCall where
  ty : String
  x : Rat
  y : Rat
  now : Nat
  rand : String
deriving DecidableEq, Repr

/-- The id generated for one call. -/
def callId (c : NodeCall) : String := nodeIdOf c.now c.rand

/-- A sequence of `createNode` calls folded over the canvas state. -/
def runAddNodes (s : CanvasData) (calls : List NodeCall) : CanvasData :=
  calls.foldl (fun st c => createNode st c.ty c.x c.y c.now c.rand) s

/-- Concrete state: one Input node added to the empty canvas. -/
def wState1 : CanvasData := createNode emptyCanvas "Input" 10 10 1 "aaaaaaaaa"

/-- The node record created inside `wState1`. -/
def wNode1 : CNode :=
  { id := "node_1_aaaaaaaaa", type := "Input", x := 10, y := 10,
    name := some "Input_aaaa" }

/-- Concrete state: an LLM node added on top of `wState1`. -/
def wState2 : CanvasData := createNode wState1 "LLM" 200 10 2 "bbbbbbbbb"

/-- The node record created inside `wState2`. -/
def wNode2 : CNode :=
  { id := "node_2_bbbbbbbbb", type := "LLM", x := 200, y := 10,
    name := some "LLM_bbbb" }

/-- Concrete state: the two nodes connected. -/
def wState3 : CanvasData := createConnection wState2 wNode1 wNode2 7

/-- A single LLM node on an otherwise empty canvas. -/
def wLLMOnly : CanvasData := createNode emptyCanvas "LLM" 200 10 2 "bbbbbbbbb"

/-- The editor run on the LLM node requesting temperature 3/2. -/
def wTempState : CanvasData :=
  applyEditor wLLMOnly "node_2_bbbbbbbbb" "my_llm" "gpt-4" (mkRat 3 2)
    "web_search" "params" "conversation_buffer" "route"

/-- Two concrete `createNode` calls with distinct clock values. -/
def wCalls : List NodeCall :=
  [{ ty := "Input", x := 10, y := 10, now := 1, rand := "aaaaaaaaa" },
   { ty := "LLM", x := 200, y := 10, now := 2, rand := "bbbbbbbbb" }]

end Canvas

namespace AppState

/-- The `NodeConfig` dataclass of `src/Node.py` lines 66-73. -/
structure NodeConfig where
  id : String
  type : String
  name : String
  x : Rat
  y : Rat
  properties : List (String × String)
deriving DecidableEq, Repr

/-- The `Connection` dataclass of `src/Node.py` lines 75-82. -/
structure Connection where
  id : String
  from_node : String
  to_node : String
  from_port : String
  to_port : String
  condition : Option String
deriving DecidableEq, Repr

/-- The `AgentFlow` dataclass of `src/Node.py` lines 84-88. -/
structure AgentFlow where
  nodes : List NodeConfig
  connections : List Connection
  metadata : List (String × String)
deriving DecidableEq, Repr

/-- `AgentFlow([], [], and the empty dict)`. -/
def emptyFlow : AgentFlow := { nodes := [], connections := [], metadata := [] }

/-- The session state of `src/Node.py` restricted to the agent-flow parts,
with Python object identity made explicit: `heap` holds the allocated
`AgentFlow` objects, `agent_flow` is the reference held by
`st.session_state.agent_flow`, and `saved_agents` maps names to references.
Python assignment copies references, never objects, and the handlers below
mirror that exactly. -/
structure Session where
  heap : List AgentFlow
  agent_flow : Nat
  saved_agents : List (String × Nat)
deriving DecidableEq, Repr

/-- `initialize_session_state` (`src/Node.py` lines 99-120): one fresh empty
`AgentFlow`, no saved agents. -/
def initSession : Session := { heap := [emptyFlow], agent_flow := 0, saved_agents := [] }

/-- Dereference the active `st.session_state.agent_flow`. -/
def activeFlow (s : Session) : AgentFlow := s.heap.getD s.agent_flow emptyFlow

/-- The graph stored in `st.session_state.saved_agents[name]`, dereferenced. -/
def storedUnder (s : Session) (nm : String) : Option AgentFlow :=
  (assocGet s.saved_agents nm).map (fun r => s.heap.getD r emptyFlow)

/-- The Save button (`src/Node.py` lines 162-164): the assignment
`saved_agents[agent_name] = st.session_state.agent_flow` stores the reference
itself, not a copy. -/
def saveAgent (s : Session) (nm : String) : Session :=
  { s with saved_agents := assocSet s.saved_agents nm s.agent_flow }

/-- The Load Agent button (`src/Node.py` lines 167-170): rebinds the active
graph to the stored object. -/
def loadAgent (s : Session) (nm : String) : Session :=
  match assocGet s.saved_agents nm with
  | some r => { s with agent_flow := r }
  | none => s

/-- The Clear button (`src/Node.py` lines 156-159): the assignment
`st.session_state.agent_flow = AgentFlow([], [], and the empty dict)`
allocates a fresh object and rebinds the active reference; references held in
`saved_agents` are untouched. -/
def clearButton (s : Session) : Session :=
  { s with heap := s.heap ++ [emptyFlow], agent_flow := s.heap.length }

/-- The demo node name of `src/Node.py` line 247: the format string takes the
FIRST four characters of the freshly generated uuid. -/
def demoNodeName (uuid : String) : String := "Input_" ++ uuid.take 4

/-- The Add Demo Node button (`src/Node.py` lines 245-250): appends, in
place, an Input node carrying the given uuid to the active flow object. -/
def addDemoNode (s : Session) (uuid : String) (x y : Rat) : Session :=
  let fl2 : AgentFlow :=
    { activeFlow s with nodes := (activeFlow s).nodes ++
        [{ id := uuid, type := "Input", name := demoNodeName uuid,
           x := x, y := y, properties := [] }] }
  { s with heap := s.heap.set s.agent_flow fl2 }

/-- Python exceptions raised while evaluating a handler body. -/
inductive PyError where
  | attributeError
deriving DecidableEq, Repr

/-- The read `st.session_state.agent_flow.nodes.id` at `src/Node.py` line 257:
a Python list object has no attribute `id`, so the read raises
`AttributeError`, whatever the list holds. -/
def listIdAttr (_nodes : List NodeConfig) : Except PyError String :=
  Except.error PyError.attributeError

/-- The Add Demo Connection button (`src/Node.py` lines 252-266). With fewer
than two nodes it only emits a warning; otherwise it builds the `Connection`
whose `from_node` argument evaluates `nodes.id`, which raises before the
append on line 262 is reached. -/
def addDemoConnection (s : Session) (uuid : String) : Except PyError Session :=
  if 2 ≤ (activeFlow s).nodes.length then
    match listIdAttr (activeFlow s).nodes with
    | Except.error e => Except.error e
    | Except.ok fid =>
        let fl2 : AgentFlow :=
          { activeFlow s with connections := (activeFlow s).connections ++
              [{ id := uuid, from_node := fid,
                 to_node := (((activeFlow s).nodes.getLast?).map (fun n => n.id)).getD "",
                 from_port := "output", to_port := "input", condition := none }] }
        Except.ok { s with heap := s.heap.set s.agent_flow fl2 }
  else Except.ok s

/-- Concrete session with two demo nodes in the active flow. -/
def wTwoNodes : Session := addDemoNode (addDemoNode initSession "u1" 0 0) "u2" 1 1

end AppState

namespace GraphModel

/-- Modelled from the spec: the property values held in a node's mapping
(section 3); the source keeps loose dict values, split here into strings and
numbers. -/
inductive PropValue where
  | str (s : String)
  | num (q : Rat)
deriving DecidableEq, Repr

/-- Modelled from the spec: a Node of the graph model of section 3. -/
structure GNode where
  id : String
  type : String
  name : String
  x : Rat
  y : Rat
  props : List (String × PropValue)
deriving DecidableEq, Repr

/-- Modelled from the spec: a Connection of section 3. -/
structure GConn where
  id : String
  fromId : String
  toId : String
  fromPort : String
  toPort : String
  condition : Option String
deriving DecidableEq, Repr

/-- Modelled from the spec: the Graph of section 3. -/
structure Graph where
  nodes : List GNode
  connections : List GConn
deriving DecidableEq, Repr

/-- The graph created empty. -/
def emptyGraph : Graph := { nodes := [], connections := [] }

/-- Modelled from the spec: the error taxonomy of section 7; no code in src/
carries these error kinds. -/
inductive GraphError where
  | invalidType
  | unknownNode
  | selfLoop
deriving DecidableEq, Repr

/-- The fixed node-type enumeration of section 3. -/
def nodeTypes : List String :=
  ["Input", "LLM", "Prompt", "Tool", "Memory", "Router", "Output"]

/-- The model-name enumeration (`src/1Node.py` line 130). -/
def modelNames : List String :=
  ["gpt-3.5-turbo", "gpt-4", "claude-3-sonnet", "llama-2"]

/-- The tool-type enumeration (`src/1Node.py` line 138). -/
def toolTypes : List String :=
  ["web_search", "calculator", "file_reader", "api_call"]

/-- Some node of the graph carries the given id. -/
def hasNode (g : Graph) (nid : String) : Bool := g.nodes.any (fun n => n.id == nid)

/-- Store a property value on every node carrying the given id. -/
def storeProp (g : Graph) (nid key : String) (v : PropValue) : Graph :=
  { g with nodes := g.nodes.map (fun n =>
      if n.id = nid then { n with props := assocSet n.props key v } else n) }

/-- Modelled from the spec: `add_node` of section 4.1; src/ has no such
function, only UI handlers. An unrecognized type is InvalidType and the
failing call returns the graph unchanged; otherwise a node with the supplied
fresh id and the default suffix name is appended. -/
def addNode (g : Graph) (ty : String) (x y : Rat) (nid : String) :
    Graph × Option GraphError :=
  if ty ∈ nodeTypes then
    ({ g with nodes := g.nodes ++
        [{ id := nid, type := ty, name := ty ++ "_" ++ sliceLast4 nid,
           x := x, y := y, props := [] }] }, none)
  else (g, some GraphError.invalidType)

/-- Modelled from the spec: `add_connection` of sections 4.1 and 7; src/ has
no id-taking connection operation. UnknownNode when an endpoint id is absent,
SelfLoop when the endpoints coincide, else the connection is appended with
the default ports and no condition; the failing call returns the graph
unchanged. -/
def addConnection (g : Graph) (a b cid : String) : Graph × Option GraphError :=
  if hasNode g a && hasNode g b then
    if a = b then (g, some GraphError.selfLoop)
    else ({ g with connections := g.connections ++
        [{ id := cid, fromId := a, toId := b, fromPort := "output",
           toPort := "input", condition := none }] }, none)
  else (g, some GraphError.unknownNode)

/-- Modelled from the spec: `set_property` of section 4.1; src/ exposes
property edits only through widgets. UnknownNode for an absent id;
`temperature` requires a numeric value and is clamped to [0, 1]; `model` and
`tool_type` must lie in their enumerations; any other key stores the value
verbatim. Every failing call returns the graph unchanged. -/
def setProperty (g : Graph) (nid key : String) (v : PropValue) :
    Graph × Option GraphError :=
  if hasNode g nid then
    if key = "temperature" then
      match v with
      | PropValue.num q => (storeProp g nid key (PropValue.num (clamp01 q)), none)
      | PropValue.str _ => (g, some GraphError.invalidType)
    else if key = "model" then
      match v with
      | PropValue.str m =>
          if m ∈ modelNames then (storeProp g nid key v, none)
          else (g, some GraphError.invalidType)
      | PropValue.num _ => (g, some GraphError.invalidType)
    else if key = "tool_type" then
      match v with
      | PropValue.str m =>
          if m ∈ toolTypes then (storeProp g nid key v, none)
          else (g, some GraphError.invalidType)
      | PropValue.num _ => (g, some GraphError.invalidType)
    else (storeProp g nid key v, none)
  else (g, some GraphError.unknownNode)

/-- A concrete one-node graph for instantiating the clamping theorem. -/
def wGraph : Graph :=
  { nodes := [{ id := "n1", type := "LLM", name := "n", x := 0, y := 0, props := [] }],
    connections := [] }

end GraphModel

/-- The naming scheme asserted by section 4.1 for a created node: the display
name is the type, an underscore, and a suffix (trailing characters) of the
freshly generated id. -/
def suffixNamed (ty nid nm : String) : Prop :=
  ∃ sfx : String, sfx.data <:+ nid.data ∧ nm = ty ++ "_" ++ sfx

/-- clamp01 agrees with the clamping form used by the spec. -/
theorem clamp01_eq_max_min (v : Rat) : clamp01 v = max 0 (min 1 v) := by
  unfold clamp01
  split
  · next h => rw [min_eq_right (by linarith), max_eq_left (by linarith)]
  · next h =>
    split
    · next h2 => rw [min_eq_left (by linarith), max_eq_right (by linarith)]
    · next h2 => rw [min_eq_right (by linarith), max_eq_right (by linarith)]

theorem find?_cons_true {β : Type} (q : β → Bool) (a : β) (l : List β)
    (h : q a = true) : (a :: l).find? q = some a := by
  simp [List.find?, h]

theorem find?_cons_false {β : Type} (q : β → Bool) (a : β) (l : List β)
    (h : q a = false) : (a :: l).find? q = l.find? q := by
  simp [List.find?, h]

theorem find?_map_assocSet {α : Type} (d : List (String × α)) (k : String) (v : α)
    (h : d.any (fun p => p.1 == k) = true) :
    (d.map (fun p => if p.1 == k then (k, v) else p)).find? (fun p => p.1 == k)
      = some (k, v) := by
  induction d with
  | nil => simp at h
  | cons hd tl ih =>
    rw [List.map_cons]
    by_cases hh : hd.1 == k
    · rw [if_pos hh]
      exact find?_cons_true _ _ _ (by simp)
    · rw [if_neg hh, find?_cons_false (fun p => p.1 == k) hd
        (List.map (fun p => if p.1 == k then (k, v) else p) tl)
        (by rw [← Bool.not_eq_true]; exact hh)]
      apply ih
      simp only [List.any_cons, Bool.or_eq_true] at h
      rcases h with h2 | h2
      · exact absurd h2 hh
      · exact h2

theorem find?_append_single {α : Type} (d : List (String × α)) (k : String) (v : α)
    (h : d.any (fun p => p.1 == k) = false) :
    (d ++ [(k, v)]).find? (fun p => p.1 == k) = some (k, v) := by
  induction d with
  | nil =>
    rw [List.nil_append]
    exact find?_cons_true _ _ _ (by simp)
  | cons hd tl ih =>
    simp only [List.any_cons, Bool.or_eq_false_iff] at h
    rw [List.cons_append,
        find?_cons_false (fun p => p.1 == k) hd (tl ++ [(k, v)]) h.1]
    exact ih h.2

/-- Looking up the key just assigned yields the assigned value. -/
theorem assocGet_assocSet_self {α : Type} (d : List (String × α)) (k : String) (v : α) :
    assocGet (assocSet d k v) k = some v := by
  unfold assocGet assocSet
  by_cases h : d.any (fun p => p.1 == k)
  · rw [if_pos h, find?_map_assocSet d k v h]
    rfl
  · rw [if_neg h, find?_append_single d k v ?_]
    · rfl
    · rw [← Bool.not_eq_true]
      exact h

/-- Keys after an assignment: the old keys plus the assigned one. -/
theorem isKey_assocSet {α : Type} (d : List (String × α)) (k k' : String) (v : α) :
    isKey (assocSet d k v) k' ↔ (isKey d k' ∨ k' = k) := by
  unfold assocSet isKey
  by_cases h : d.any (fun p => p.1 == k)
  · rw [if_pos h]
    have hkey : ∀ p : String × α, ((if p.1 == k then (k, v) else p) : String × α).1 = p.1 := by
      intro p
      by_cases hp : p.1 == k
      · rw [if_pos hp]
        exact (eq_of_beq hp).symm
      · rw [if_neg hp]
    constructor
    · rintro ⟨p, hp, hfst⟩
      rcases List.mem_map.mp hp with ⟨q, hq, rfl⟩
      exact Or.inl ⟨q, hq, by rw [← hkey q]; exact hfst⟩
    · rintro (⟨q, hq, hfst⟩ | rfl)
      · exact ⟨_, List.mem_map_of_mem _ hq, by rw [hkey q]; exact hfst⟩
      · rcases List.any_eq_true.mp h with ⟨q, hq, hqk⟩
        exact ⟨_, List.mem_map_of_mem _ hq, by rw [hkey q]; exact eq_of_beq hqk⟩
  · rw [if_neg h]
    constructor
    · rintro ⟨p, hp, hfst⟩
      rcases List.mem_append.mp hp with hp | hp
      · exact Or.inl ⟨p, hp, hfst⟩
      · rcases List.mem_singleton.mp hp with rfl
        exact Or.inr hfst.symm
    · rintro (⟨q, hq, hfst⟩ | rfl)
      · exact ⟨q, List.mem_append_left _ hq, hfst⟩
      · exact ⟨_, List.mem_append_right _ (List.mem_singleton.mpr rfl), rfl⟩

/-- Element read at the position of a freshly appended element. -/
theorem getD_concat {α : Type} (xs : List α) (x d : α) :
    (xs ++ [x]).getD xs.length d = x := by
  induction xs with
  | nil => rfl
  | cons hd tl ih => simp [ih]

namespace Canvas

/-- The editor never changes a node's id. -/
theorem editorUpdate_id (n : CNode) (nm mo : String) (t : Rat) (tl pa me ro : String) :
    (editorUpdate n nm mo t tl pa me ro).id = n.id := by
  unfold editorUpdate
  repeat' split
  all_goals rfl

/-- Mapping the editor over the node list preserves which ids occur. -/
theorem mapEditor_preserves_id (L : List CNode) (nid nm mo : String) (t : Rat)
    (tl pa me ro : String) (k : String) (h : ∃ n ∈ L, n.id = k) :
    ∃ m ∈ L.map (fun n =>
        if n.id = nid then editorUpdate n nm mo t tl pa me ro else n), m.id = k := by
  rcases h with ⟨n, hn, hk⟩
  refine ⟨_, List.mem_map_of_mem _ hn, ?_⟩
  by_cases hid : n.id = nid
  · rw [if_pos hid, editorUpdate_id]
    exact hk
  · rw [if_neg hid]
    exact hk

/-- Keys of the exported nodes dict built by the fold are precisely the node
ids of the state (together with whatever keys the accumulator already had). -/
theorem isKey_nodesFold (L : List CNode) (d : List (String × NodeEntry)) (k : String) :
    isKey (L.foldl (fun d n => assocSet d n.id (nodeEntryOf n)) d) k
      ↔ (isKey d k ∨ ∃ n ∈ L, n.id = k) := by
  induction L generalizing d with
  | nil => simp
  | cons hd tl ih =>
    rw [List.foldl_cons, ih, isKey_assocSet]
    constructor
    · rintro ((hk | hk) | ⟨n, hn, hk⟩)
      · exact Or.inl hk
      · exact Or.inr ⟨hd, List.mem_cons_self _ _, hk.symm⟩
      · exact Or.inr ⟨n, List.mem_cons_of_mem _ hn, hk⟩
    · rintro (hk | ⟨n, hn, hk⟩)
      · exact Or.inl (Or.inl hk)
      · rcases List.mem_cons.mp hn with rfl | hn
        · exact Or.inl (Or.inr hk.symm)
        · exact Or.inr ⟨n, hn, hk⟩

/-- Every reachable canvas state satisfies referential integrity. -/
theorem reachable_refIntegrity {s : CanvasData} (h : Reachable s) : refIntegrity s := by
  induction h with
  | empty => intro c hc; simp [emptyCanvas] at hc
  | addNode _ _ ih =>
    intro c hc
    rcases ih c hc with ⟨⟨n1, hn1, h1⟩, ⟨n2, hn2, h2⟩⟩
    exact ⟨⟨n1, List.mem_append_left _ hn1, h1⟩, ⟨n2, List.mem_append_left _ hn2, h2⟩⟩
  | addConn _ ha hb ih =>
    intro c hc
    rcases List.mem_append.mp hc with hc | hc
    · exact ih c hc
    · rcases List.mem_singleton.mp hc with rfl
      exact ⟨⟨_, ha, rfl⟩, ⟨_, hb, rfl⟩⟩
  | edit _ ih =>
    intro c hc
    rcases ih c hc with ⟨h1, h2⟩
    exact ⟨mapEditor_preserves_id _ _ _ _ _ _ _ _ _ _ h1,
           mapEditor_preserves_id _ _ _ _ _ _ _ _ _ _ h2⟩
  | clear _ _ => intro c hc; simp [clearCanvas] at hc

end Canvas

namespace Canvas

/-- The node loop of the export carries the state component unchanged. -/
theorem foldl_pair_nodes (L : List CNode) (d : List (String × NodeEntry)) (s : CanvasData) :
    L.foldl (fun (acc : List (String × NodeEntry) × CanvasData) n =>
        (assocSet acc.1 n.id (nodeEntryOf n), acc.2)) (d, s)
      = (L.foldl (fun dd n => assocSet dd n.id (nodeEntryOf n)) d, s) := by
  induction L generalizing d with
  | nil => rfl
  | cons hd tl ih => exact ih _

/-- The connection loop of the export carries the state component unchanged
and appends one flow entry per connection. -/
theorem foldl_pair_flow (L : List CConn) (fl : List FlowEntry) (s : CanvasData) :
    L.foldl (fun (acc : List FlowEntry × CanvasData) c =>
        (acc.1 ++ [flowEntryOf c], acc.2)) (fl, s)
      = (fl ++ L.map flowEntryOf, s) := by
  induction L generalizing fl with
  | nil => simp
  | cons hd tl ih => simp [ih]

/-- The ids present after a run of createNode calls are the old ids followed
by the generated ones, in order. -/
theorem runAddNodes_ids (calls : List NodeCall) :
    ∀ s : CanvasData, (runAddNodes s calls).nodes.map (fun n => n.id)
      = s.nodes.map (fun n => n.id) ++ calls.map callId := by
  induction calls with
  | nil => intro s; simp [runAddNodes]
  | cons c tl ih =>
    intro s
    have h2 := ih (createNode s c.ty c.x c.y c.now c.rand)
    simp only [runAddNodes, List.foldl_cons] at h2 ⊢
    rw [h2]
    simp [createNode, callId, List.map_append]

end Canvas

/-- C1: for every canvas state reachable by the operations of src/1Node.py,
every node id appearing as the from or to value of an entry in the flow list
of the document produced by the export is present as a key in the nodes
mapping of the same document. -/
theorem toConfig_flow_refs_are_node_keys (s : Canvas.CanvasData) (hs : Canvas.Reachable s) :
    ∀ fe ∈ (Canvas.toConfig s).flow,
      isKey (Canvas.toConfig s).nodes fe.fromId
        ∧ isKey (Canvas.toConfig s).nodes fe.toId := by
  intro fe hfe
  have hint := Canvas.reachable_refIntegrity hs
  rcases List.mem_map.mp hfe with ⟨c, hc, rfl⟩
  rcases hint c hc with ⟨h1, h2⟩
  constructor
  · exact (Canvas.isKey_nodesFold s.nodes [] c.fromId).mpr (Or.inr h1)
  · exact (Canvas.isKey_nodesFold s.nodes [] c.toId).mpr (Or.inr h2)

/-- C1 witness: a concrete reachable state with two nodes and one connection;
both endpoint ids of its single flow entry are keys of the nodes mapping. -/
theorem toConfig_flow_refs_are_node_keys_witness :
    isKey (Canvas.toConfig Canvas.wState3).nodes "node_1_aaaaaaaaa"
      ∧ isKey (Canvas.toConfig Canvas.wState3).nodes "node_2_bbbbbbbbb" := by
  have hreach : Canvas.Reachable Canvas.wState3 :=
    Canvas.Reachable.addConn
      (Canvas.Reachable.addNode
        (Canvas.Reachable.addNode Canvas.Reachable.empty (by decide)) (by decide))
      (by decide) (by decide)
  exact toConfig_flow_refs_are_node_keys Canvas.wState3 hreach
    { fromId := "node_1_aaaaaaaaa", toId := "node_2_bbbbbbbbb", condition := "default" }
    (by decide)

/-- C2: setting the temperature property stores exactly the requested value
clamped as max 0 (min 1 v) on the addressed node; and requesting temperature
3/2 on the LLM node through the canvas editor yields temperature 1 in the
exported document. -/
theorem set_temperature_stores_clamped :
    (∀ (g : GraphModel.Graph) (nid : String) (v : Rat),
        GraphModel.hasNode g nid = true →
        ((GraphModel.setProperty g nid "temperature" (GraphModel.PropValue.num v)).1).nodes
          = g.nodes.map (fun n =>
              if n.id = nid then
                { n with props := assocSet n.props "temperature" (GraphModel.PropValue.num (max 0 (min 1 v))) }
              else n))
  ∧ (Canvas.toConfig Canvas.wTempState).nodes.map (fun p => p.2.temperature)
      = [some 1] := by
  constructor
  · intro g nid v h
    unfold GraphModel.setProperty
    rw [if_pos h, if_pos rfl]
    unfold GraphModel.storeProp
    simp [clamp01_eq_max_min]
  · decide

/-- C2 witness: the clamping theorem applied to a concrete one-node graph at
the requested value 3/2. -/
theorem set_temperature_stores_clamped_witness :
    ((GraphModel.setProperty GraphModel.wGraph "n1" "temperature"
        (GraphModel.PropValue.num (mkRat 3 2))).1).nodes
      = GraphModel.wGraph.nodes.map (fun n =>
          if n.id = "n1" then
            { n with props := assocSet n.props "temperature" (GraphModel.PropValue.num (max 0 (min 1 (mkRat 3 2)))) }
          else n) :=
  set_temperature_stores_clamped.1 GraphModel.wGraph "n1" (mkRat 3 2) (by decide)

/-- C3 counterexample: calling createConnection with one and the same existing
node as both endpoints does not fail; it appends a self-loop connection to
the state. -/
theorem createConnection_self_loop_cex :
    Canvas.wNode1 ∈ Canvas.wState1.nodes
  ∧ (Canvas.createConnection Canvas.wState1 Canvas.wNode1 Canvas.wNode1 7).connections
      = [{ fromId := "node_1_aaaaaaaaa", toId := "node_1_aaaaaaaaa", id := "conn_7" }]
  ∧ (Canvas.createConnection Canvas.wState1 Canvas.wNode1 Canvas.wNode1 7).connections
      ≠ Canvas.wState1.connections := by
  decide

/-- C3 amended: createConnection never fails and validates nothing: for any
two node arguments, equal or not, known or not, it appends exactly one
connection between their ids (with a clock-derived id) and leaves the nodes
untouched; the exported document gains exactly one flow entry. -/
theorem createConnection_appends_unvalidated (s : Canvas.CanvasData)
    (a b : Canvas.CNode) (now : Nat) :
    (Canvas.createConnection s a b now).nodes = s.nodes
  ∧ (Canvas.createConnection s a b now).connections
      = s.connections ++ [{ fromId := a.id, toId := b.id, id := "conn_" ++ toString now }]
  ∧ (Canvas.toConfig (Canvas.createConnection s a b now)).flow
      = (Canvas.toConfig s).flow
          ++ [{ fromId := a.id, toId := b.id, condition := "default" }]
  ∧ (Canvas.toConfig (Canvas.createConnection s a b now)).nodes
      = (Canvas.toConfig s).nodes := by
  refine ⟨rfl, rfl, ?_, rfl⟩
  simp [Canvas.toConfig, Canvas.createConnection, Canvas.flowEntryOf]

/-- C4: every mutator call of the modelled graph API that reports an error
leaves the graph unchanged; in particular add_connection with two absent ids
on the empty graph fails with UnknownNode and the graph afterward still has
zero nodes and zero connections. -/
theorem mutator_failure_leaves_graph_unchanged :
    (∀ (g : GraphModel.Graph) (ty : String) (x y : Rat) (nid : String),
        (GraphModel.addNode g ty x y nid).2.isSome = true →
        (GraphModel.addNode g ty x y nid).1 = g)
  ∧ (∀ (g : GraphModel.Graph) (a b cid : String),
        (GraphModel.addConnection g a b cid).2.isSome = true →
        (GraphModel.addConnection g a b cid).1 = g)
  ∧ (∀ (g : GraphModel.Graph) (nid key : String) (v : GraphModel.PropValue),
        (GraphModel.setProperty g nid key v).2.isSome = true →
        (GraphModel.setProperty g nid key v).1 = g)
  ∧ ((GraphModel.addConnection GraphModel.emptyGraph "missing" "also-missing" "c1").2
        = some GraphModel.GraphError.unknownNode
      ∧ (GraphModel.addConnection GraphModel.emptyGraph "missing" "also-missing" "c1").1
          = GraphModel.emptyGraph
      ∧ GraphModel.emptyGraph.nodes.length = 0
      ∧ GraphModel.emptyGraph.connections.length = 0) := by
  refine ⟨?_, ?_, ?_, by decide⟩
  · intro g ty x y nid h
    by_cases h1 : ty ∈ GraphModel.nodeTypes
    · simp [GraphModel.addNode, h1] at h
    · simp [GraphModel.addNode, h1]
  · intro g a b cid h
    by_cases h1 : (GraphModel.hasNode g a && GraphModel.hasNode g b) = true
    · by_cases h2 : a = b
      · subst h2
        unfold GraphModel.addConnection
        rw [if_pos h1, if_pos rfl]
      · simp [GraphModel.addConnection, h1, h2] at h
    · simp [GraphModel.addConnection, h1]
  · intro g nid key v h
    by_cases h1 : GraphModel.hasNode g nid = true
    · by_cases h2 : key = "temperature"
      · cases v with
        | num q => simp [GraphModel.setProperty, h1, h2] at h
        | str m => simp [GraphModel.setProperty, h1, h2]
      · by_cases h3 : key = "model"
        · cases v with
          | str m =>
            by_cases h4 : m ∈ GraphModel.modelNames
            · simp [GraphModel.setProperty, h1, h2, h3, h4] at h
            · simp [GraphModel.setProperty, h1, h2, h3, h4]
          | num q => simp [GraphModel.setProperty, h1, h2, h3]
        · by_cases h5 : key = "tool_type"
          · cases v with
            | str m =>
              by_cases h6 : m ∈ GraphModel.toolTypes
              · simp [GraphModel.setProperty, h1, h2, h3, h5, h6] at h
              · simp [GraphModel.setProperty, h1, h2, h3, h5, h6]
            | num q => simp [GraphModel.setProperty, h1, h2, h3, h5]
          · simp [GraphModel.setProperty, h1, h2, h3, h5] at h
    · simp [GraphModel.setProperty, h1]

/-- C4 witness: the UnknownNode scenario of the claim, with the failing call
returning the empty graph unchanged. -/
theorem mutator_failure_leaves_graph_unchanged_witness :
    (GraphModel.addConnection GraphModel.emptyGraph "missing" "also-missing" "c1").1
      = GraphModel.emptyGraph :=
  mutator_failure_leaves_graph_unchanged.2.1 GraphModel.emptyGraph
    "missing" "also-missing" "c1" (by decide)

/-- C5: the export section is a pure, deterministic function of the canvas
state: threading the state through its loops hands it back unchanged, the
document built is toConfig of the state, and running the export twice with no
intervening mutation yields the identical document. -/
theorem export_pure_deterministic (s : Canvas.CanvasData) :
    (Canvas.exportConfigLoop s).2 = s
  ∧ (Canvas.exportConfigLoop s).1 = Canvas.toConfig s
  ∧ (Canvas.exportConfigLoop ((Canvas.exportConfigLoop s).2)).1
      = (Canvas.exportConfigLoop s).1 := by
  have hmain : Canvas.exportConfigLoop s = (Canvas.toConfig s, s) := by
    simp only [Canvas.exportConfigLoop]
    rw [Canvas.foldl_pair_nodes]
    rw [Canvas.foldl_pair_flow]
    rfl
  refine ⟨?_, ?_, ?_⟩ <;> simp [hmain]

/-- C6: modelling the clock and random padding of each call as supplied id
material, any sequence of createNode calls whose generated id strings are
pairwise distinct produces a graph whose node ids are pairwise distinct. -/
theorem addNode_sequence_ids_pairwise_distinct (calls : List Canvas.NodeCall)
    (h : (calls.map Canvas.callId).Pairwise (fun a b => a ≠ b)) :
    ((Canvas.runAddNodes Canvas.emptyCanvas calls).nodes.map
        (fun n => n.id)).Pairwise (fun a b => a ≠ b) := by
  rw [Canvas.runAddNodes_ids]
  simpa using h

/-- C6 witness: two concrete calls with distinct clock readings. -/
theorem addNode_sequence_ids_pairwise_distinct_witness :
    ((Canvas.runAddNodes Canvas.emptyCanvas Canvas.wCalls).nodes.map
        (fun n => n.id)).Pairwise (fun a b => a ≠ b) :=
  addNode_sequence_ids_pairwise_distinct Canvas.wCalls (by decide)

/-- C7 counterexample: save stores a reference, not a deep copy: after
saving under A the stored graph is the empty flow, and a later in-place
mutation of the active graph (adding a demo node) changes the graph stored
under A as well. -/
theorem save_alias_not_deep_copy_cex :
    AppState.storedUnder (AppState.saveAgent AppState.initSession "A") "A"
        = some AppState.emptyFlow
  ∧ AppState.storedUnder
        (AppState.addDemoNode (AppState.saveAgent AppState.initSession "A") "u123" 5 7) "A"
      ≠ some AppState.emptyFlow := by
  decide

/-- C7 amended: save stores a reference to the current graph object (no
copy): the stored entry always dereferences to the active flow, including
after later in-place mutation; clear rebinds the active graph to a fresh
empty object, so saving the same name again keeps only the last graph; and
load rebinds the active graph to the stored object. -/
theorem save_load_reference_semantics :
    (∀ (s : AppState.Session) (nm : String),
        AppState.storedUnder (AppState.saveAgent s nm) nm
          = some (AppState.activeFlow s))
  ∧ (∀ (s : AppState.Session) (nm uuid : String) (x y : Rat),
        AppState.storedUnder
            (AppState.addDemoNode (AppState.saveAgent s nm) uuid x y) nm
          = some (AppState.activeFlow
              (AppState.addDemoNode (AppState.saveAgent s nm) uuid x y)))
  ∧ (∀ (s : AppState.Session) (nm : String),
        AppState.storedUnder
            (AppState.saveAgent (AppState.clearButton (AppState.saveAgent s nm)) nm) nm
          = some AppState.emptyFlow)
  ∧ (∀ (s : AppState.Session) (nm : String) (r : Nat),
        assocGet s.saved_agents nm = some r →
        AppState.activeFlow (AppState.loadAgent s nm)
          = s.heap.getD r AppState.emptyFlow) := by
  refine ⟨?_, ?_, ?_, ?_⟩
  · intro s nm
    simp [AppState.storedUnder, AppState.saveAgent, assocGet_assocSet_self,
          AppState.activeFlow]
  · intro s nm uuid x y
    simp [AppState.storedUnder, AppState.saveAgent, AppState.addDemoNode,
          assocGet_assocSet_self, AppState.activeFlow]
  · intro s nm
    simp [AppState.storedUnder, AppState.saveAgent, AppState.clearButton,
          assocGet_assocSet_self, AppState.activeFlow, getD_concat]
  · intro s nm r h
    simp [AppState.loadAgent, h, AppState.activeFlow]

/-- C7 amended witness: loading A right after saving it on the fresh session
makes the active graph the stored object at reference 0. -/
theorem save_load_reference_semantics_witness :
    AppState.activeFlow (AppState.loadAgent (AppState.saveAgent AppState.initSession "A") "A")
      = (AppState.saveAgent AppState.initSession "A").heap.getD 0 AppState.emptyFlow :=
  save_load_reference_semantics.2.2.2 (AppState.saveAgent AppState.initSession "A") "A" 0
    (by decide)

/-- C8: clearing empties both collections and cannot fail, and the document
exported from the cleared state has an empty nodes mapping and an empty flow
list with the static metadata fields intact; the Clear button of src/Node.py
likewise leaves the active flow empty. -/
theorem clear_then_export_empty (s : Canvas.CanvasData) (t : AppState.Session) :
    Canvas.toConfig (Canvas.clearCanvas s)
      = { agent_type := "custom_visual_agent", created_at := "2024-01-01T00:00:00Z",
          nodes := [], flow := [] }
  ∧ AppState.activeFlow (AppState.clearButton t) = AppState.emptyFlow := by
  constructor
  · rfl
  · simp [AppState.clearButton, AppState.activeFlow, getD_concat]

/-- C9 counterexample: the demo node of src/Node.py is named with the FIRST
four characters of its id; on the id 12345678 the name is Input_1234, and no
suffix of the id yields that name. -/
theorem demo_node_name_prefix_cex :
    AppState.demoNodeName "12345678" = "Input_1234"
  ∧ ¬ suffixNamed "Input" "12345678" (AppState.demoNodeName "12345678") := by
  constructor
  · rfl
  · rintro ⟨sfx, hsuf, heq⟩
    have hd : (AppState.demoNodeName "12345678").data
        = ("Input" ++ "_").data ++ sfx.data := by
      rw [heq, String.data_append]
    have h0 : (AppState.demoNodeName "12345678").data
        = ("Input" ++ "_").data ++ ['1', '2', '3', '4'] := by decide
    have hsfx : sfx.data = ['1', '2', '3', '4'] :=
      List.append_cancel_left (hd.symm.trans h0)
    rw [hsfx] at hsuf
    exact absurd hsuf (by decide)

/-- C9 amended: in src/1Node.py the created node is named with the type, an
underscore and the last four characters of the fresh id, which is a genuine
suffix; in src/Node.py the demo node is named Input underscore the first four
characters of its uuid, a prefix rather than a suffix. -/
theorem node_default_name_schemes (s : Canvas.CanvasData) (ty : String) (x y : Rat)
    (now : Nat) (rand uuid : String) :
    (Canvas.createNode s ty x y now rand).nodes.map (fun n => n.name)
      = s.nodes.map (fun n => n.name)
        ++ [some (ty ++ "_" ++ sliceLast4 (Canvas.nodeIdOf now rand))]
  ∧ (sliceLast4 (Canvas.nodeIdOf now rand)).data <:+ (Canvas.nodeIdOf now rand).data
  ∧ AppState.demoNodeName uuid = "Input_" ++ uuid.take 4 := by
  refine ⟨?_, ?_, rfl⟩
  · simp [Canvas.createNode]
  · exact List.drop_suffix _ _

/-- C10: whenever the active flow holds at least two nodes, the Add Demo
Connection handler raises AttributeError before appending anything, and no
successful run of the handler ever changes the session; the operation never
adds a connection in any state. -/
theorem add_demo_connection_never_appends (s : AppState.Session) (uuid : String) :
    (2 ≤ (AppState.activeFlow s).nodes.length →
      AppState.addDemoConnection s uuid
        = Except.error AppState.PyError.attributeError)
  ∧ (∀ s2 : AppState.Session,
      AppState.addDemoConnection s uuid = Except.ok s2 → s2 = s) := by
  constructor
  · intro h
    simp [AppState.addDemoConnection, h, AppState.listIdAttr]
  · intro s2 h
    by_cases hl : 2 ≤ (AppState.activeFlow s).nodes.length
    · simp [AppState.addDemoConnection, hl, AppState.listIdAttr] at h
    · simp [AppState.addDemoConnection, hl] at h
      exact h.symm

/-- C10 witness: a session holding two demo nodes; the handler fails with
AttributeError there. -/
theorem add_demo_connection_never_appends_witness :
    AppState.addDemoConnection AppState.wTwoNodes "c-uuid"
      = Except.error AppState.PyError.attributeError :=
  (add_demo_connection_never_appends AppState.wTwoNodes "c-uuid").1 (by decide)
